import Mathlib

/-!
# Verification of `generate_creatures.py` (Shiny-Hunt-2.0)

A shallow embedding of the sprite-generation script: the parameter
records, the `draw_creature` renderer (modelled as the sequence of
drawing commands it issues on a fresh 100×100 RGBA canvas), the static
`CREATURES` catalogue, and the `generate_all` driver loop.

Machine arithmetic: the only floating-point computation the claims
depend on is `int(c * 0.7 + 80)` in the unique-variant colour
transform (line 59 of `generate_creatures.py`).  We model IEEE-754
binary64 arithmetic exactly: every value arising in that expression
for channel values `0 ≤ c ≤ 255` is a dyadic rational with denominator
dividing `2^60`, so we represent a floating-point value `v` by the
natural number `v * 2^60` and round to the representable-double grid
with exact natural-number arithmetic (round-to-nearest, ties-to-even).
All intermediate values lie in `[2^-1, 2^9)`, far from overflow and
subnormal territory, so this model is the exact semantics of the
Python expression.
-/

namespace ShinyHunt

/-- RGB colour triple (channel values are Python ints, here `ℕ`). -/
abbrev Colour := ℕ × ℕ × ℕ

/-- The mantissa of the IEEE-754 binary64 double nearest to the
literal `0.7`: that double is exactly `3152519739159347 / 2^52`. -/
def mant07 : ℕ := 3152519739159347

/-- `60 +` the binade exponent `⌊log₂ (n / 2^60)⌋` of a scaled value
`n` (representing `n / 2^60`), for values in `[2^59, 2^69)` — the
range containing every nonzero product `c · 0.7` (`c ∈ [1, 255]`,
value in `[0.69…, 178.5]`) and every sum `prod + 80` (value in
`[80, 258.5]`).  Written as a comparison chain the kernel evaluates. -/
def binade60 (n : ℕ) : ℕ :=
  if n < 2 ^ 60 then 59
  else if n < 2 ^ 61 then 60
  else if n < 2 ^ 62 then 61
  else if n < 2 ^ 63 then 62
  else if n < 2 ^ 64 then 63
  else if n < 2 ^ 65 then 64
  else if n < 2 ^ 66 then 65
  else if n < 2 ^ 67 then 66
  else if n < 2 ^ 68 then 67
  else 68

/-- Round `n / 2^g` to the nearest natural number, ties to even. -/
def roundHalfEven (n g : ℕ) : ℕ :=
  let q := n / 2 ^ g
  let r := n % 2 ^ g
  if 2 * r < 2 ^ g then q
  else if 2 ^ g < 2 * r then q + 1
  else if q % 2 = 0 then q else q + 1

/-- Round a non-negative scaled value `n` (representing `n / 2^60`) to
the nearest IEEE-754 binary64 double, ties to even.  A double in the
binade `[2^e, 2^(e+1)]` is a multiple of `2^(e-52)`; in the `2^60`
scaling that grid is the multiples of `2^(binade60 n - 52)`. -/
def roundDouble (n : ℕ) : ℕ :=
  if n = 0 then 0
  else roundHalfEven n (binade60 n - 52) * 2 ^ (binade60 n - 52)

/-- The Python expression `int(c * 0.7 + 80)` under exact binary64
semantics: the int `c` converts exactly to a double (true for
`c < 2^53`); the product with the double `0.7` (exact value
`mant07 / 2^52`, scaled value `c * mant07 * 2^8`) rounds once; the sum
with the exact double `80.0` rounds once; `int` truncates toward zero,
which is floor division by `2^60` since the value is positive. -/
def pyTrunc07 (c : ℕ) : ℕ :=
  roundDouble (roundDouble (c * mant07 * 2 ^ 8) + 80 * 2 ^ 60) / 2 ^ 60

/-- One channel of the unique-variant body colour:
`min(255, int(c * 0.7 + 80))` from line 59 of the source. -/
def uniqueChannel (c : ℕ) : ℕ :=
  min 255 (pyTrunc07 c)

/-- A creature parameter record: the dictionary passed to
`draw_creature`.  A `none` field models a key absent from the dict, so
`params.get(key, default)` becomes `Option.getD`. -/
structure Params where
  color : Option Colour := none
  tail : Option String := none
  horns : Option Bool := none
  horns_color : Option Colour := none
  spines : Option ℕ := none
  crest : Option Bool := none
  spots : Option Bool := none
  fins : Option Bool := none
  allow_crest_unique : Option Bool := none
deriving DecidableEq

instance : Inhabited Params := ⟨{}⟩

/-- The local feature variables of `draw_creature` after the
parameter-extraction block (lines 47–54). -/
structure Features where
  colour : Colour
  tail : String
  horns : Bool
  horns_color : Option Colour
  spines : ℕ
  crest : Bool
  spots : Bool
  fins : Bool
deriving DecidableEq

/-- Lines 47–54: `params.get(...)` with the documented defaults. -/
def extractParams (p : Params) : Features where
  colour := p.color.getD (120, 200, 120)
  tail := p.tail.getD "normal"
  horns := p.horns.getD false
  horns_color := p.horns_color
  spines := p.spines.getD 0
  crest := p.crest.getD false
  spots := p.spots.getD false
  fins := p.fins.getD false

/-- Apply a function to each channel of a colour, as the per-channel
`tuple(f(c) for c in colour)` comprehensions do. -/
def mapColour (f : ℕ → ℕ) : Colour → Colour :=
  fun c => (f c.1, f c.2.1, f c.2.2)

/-- Lines 57–64: the unique-variant adjustment of the extracted
features.  `params.get('allow_crest_unique', True)` guards the crest
inversion. -/
def uniqueTransform (p : Params) (f : Features) : Features :=
  { f with
    colour := mapColour uniqueChannel f.colour
    horns := !f.horns
    spines := (f.spines + 2) % 5
    crest := if p.allow_crest_unique.getD true then !f.crest else f.crest
    spots := !f.spots
    fins := !f.fins }

/-- The features `draw_creature` actually draws with: the extracted
parameters, unique-adjusted when `unique` is true. -/
def effFeatures (p : Params) (unique : Bool) : Features :=
  if unique then uniqueTransform p (extractParams p) else extractParams p

/-- One Pillow drawing command issued by `draw_creature`.  Coordinates
are `ℤ` (Python ints); fills are RGB triples. -/
inductive DrawOp where
  | ellipse (x0 y0 x1 y1 : ℤ) (fill : Colour)
  | rectangle (x0 y0 x1 y1 : ℤ) (fill : Colour)
  | polygon (pts : List (ℤ × ℤ)) (fill : Colour)
  | line (pts : List (ℤ × ℤ)) (fill : Colour) (width : ℕ)
deriving DecidableEq

/-- The fill colour of a drawing command. -/
def DrawOp.fill : DrawOp → Colour
  | .ellipse _ _ _ _ f => f
  | .rectangle _ _ _ _ f => f
  | .polygon _ f => f
  | .line _ f _ => f

/-- The rendered image: mode and size from `Image.new`, the initial
background colour, and the drawing commands in issue order. -/
structure PILImage where
  mode : String
  width : ℤ
  height : ℤ
  background : ℕ × ℕ × ℕ × ℕ
  ops : List DrawOp
deriving DecidableEq

/-- Lines 81–84: the leaf tail, a four-point polygon and its central
vein line in dark green. -/
def leafTail (colour : Colour) : List DrawOp :=
  [.polygon [(20, 70), (10, 50), (20, 55), (15, 65)] colour,
   .line [(15, 55), (15, 65)] (0, 100, 0) 1]

/-- Lines 86–87: the long tail, a three-point polygon reaching far
from the body. -/
def longTail (colour : Colour) : List DrawOp :=
  [.polygon [(20, 75), (5, 65), (20, 55)] colour]

/-- Lines 89–91: the fin tail, a three-point polygon and a contrasting
vein line in blue. -/
def finTail (colour : Colour) : List DrawOp :=
  [.polygon [(20, 70), (5, 60), (20, 50)] colour,
   .line [(12, 58), (12, 65)] (0, 150, 200) 1]

/-- Lines 93–94: the default small three-point tail polygon. -/
def normalTail (colour : Colour) : List DrawOp :=
  [.polygon [(20, 70), (10, 65), (20, 60)] colour]

/-- Lines 80–94: the tail, one of four shapes selected on the tail
enum; the trailing `else` covers `'normal'` and anything else. -/
def tailOps (tail : String) (colour : Colour) : List DrawOp :=
  if tail = "leaf" then leafTail colour
  else if tail = "long" then longTail colour
  else if tail = "fin" then finTail colour
  else normalTail colour

/-- Lines 97–100: two horn triangles when `horns` is set, filled with
`horns_colour or` the body colour lightened by 40 per channel. -/
def hornOps (f : Features) : List DrawOp :=
  if f.horns then
    let hc := f.horns_color.getD (mapColour (fun c => min 255 (c + 40)) f.colour)
    [.polygon [(50, 12), (54, 25), (46, 25)] hc,
     .polygon [(60, 12), (64, 25), (56, 25)] hc]
  else []

/-- Lines 103–106: one triangle per spine index `i < spines`, stepping
right and up, darkened by 30 per channel (`max(0, c - 30)` is `ℕ`
truncated subtraction). -/
def spineOps (spines : ℕ) (colour : Colour) : List DrawOp :=
  (List.range spines).map fun i =>
    .polygon [((30 + i * 10 : ℤ), 38 - i * 2),
              (30 + i * 10 + 5, 28 - i * 2),
              (30 + i * 10 + 10, 38 - i * 2)]
      (mapColour (fun c => c - 30) colour)

/-- `(int(12 * cos(radians(60 * i))), int(12 * sin(radians(60 * i))))`
for `i < 6` — the exact values under binary64 `math.cos`/`math.sin`
and truncation toward zero (note the asymmetry `(6, 10)` versus
`(-5, 10)` produced by truncating `-5.999…` toward zero). -/
def petalOffset : ℕ → ℤ × ℤ
  | 0 => (12, 0)
  | 1 => (6, 10)
  | 2 => (-5, 10)
  | 3 => (-12, 0)
  | 4 => (-6, -10)
  | _ => (6, -10)

/-- Lines 109–116: six crest petals on a ring around `(60, 40)`, gold
for the base variant and magenta for the unique variant. -/
def crestOps (crest : Bool) (unique : Bool) : List DrawOp :=
  if crest then
    (List.range 6).map fun i =>
      let d := petalOffset i
      .ellipse (60 + d.1 - 4) (40 + d.2 - 4) (60 + d.1 + 4) (40 + d.2 + 4)
        (if !unique then (255, 200, 0) else (255, 0, 200))
  else []

/-- Lines 119–125: six spots at positions drawn from `random.randint`;
the random source is modelled as a stream `rng` giving the `(sx, sy)`
pair of each spot (values lie in `[30, 70] × [50, 85]`), darkened by
40 per channel. -/
def spotOps (spots : Bool) (colour : Colour) (rng : ℕ → ℤ × ℤ) : List DrawOp :=
  if spots then
    (List.range 6).map fun k =>
      let s := rng k
      .ellipse (s.1 - 2) (s.2 - 2) (s.1 + 2) (s.2 + 2)
        (mapColour (fun c => c - 40) colour)
  else []

/-- Lines 128–133: three fins marching right along the back, lightened
by 60 per channel. -/
def finOps (fins : Bool) (colour : Colour) : List DrawOp :=
  if fins then
    (List.range 3).map fun i =>
      .polygon [((35 + i * 15 : ℤ), 35 - i * 3),
                (35 + i * 15 + 7, 25 - i * 3),
                (35 + i * 15 + 14, 35 - i * 3)]
        (mapColour (fun c => min 255 (c + 60)) colour)
  else []

/-- Lines 136–142: the two eyes with pupils, at fixed positions
derived from `eye_x = 63, eye_y = 33`. -/
def eyeOps : List DrawOp :=
  [.ellipse (63 - 10) (33 - 5) (63 - 4) (33 + 1) (255, 255, 255),
   .ellipse (63 - 8) (33 - 3) (63 - 6) (33 - 1) (0, 0, 0),
   .ellipse (63 - 24) (33 - 5) (63 - 18) (33 + 1) (255, 255, 255),
   .ellipse (63 - 22) (33 - 3) (63 - 20) (33 - 1) (0, 0, 0)]

/-- The commands issued before the spots: body ellipse, head ellipse,
two leg rectangles (lines 67–77), tail, horns, spines, crest. -/
def preSpotOps (f : Features) (unique : Bool) : List DrawOp :=
  [.ellipse 20 40 80 90 f.colour,
   .ellipse 40 20 80 60 f.colour,
   .rectangle 30 80 40 95 f.colour,
   .rectangle 55 80 65 95 f.colour]
  ++ tailOps f.tail f.colour
  ++ hornOps f
  ++ spineOps f.spines f.colour
  ++ crestOps f.crest unique

/-- The commands issued after the spots: fins, then eyes. -/
def postSpotOps (f : Features) : List DrawOp :=
  finOps f.fins f.colour ++ eyeOps

/-- `draw_creature(params, unique)`: a fresh 100×100 RGBA canvas with
transparent background, then the drawing commands in source order.
`rng` supplies the spot positions (the only randomness). -/
def draw_creature (p : Params) (unique : Bool) (rng : ℕ → ℤ × ℤ) : PILImage where
  mode := "RGBA"
  width := 100
  height := 100
  background := (0, 0, 0, 0)
  ops :=
    let f := effFeatures p unique
    preSpotOps f unique ++ spotOps f.spots f.colour rng ++ postSpotOps f

/-- Lines 150–211: the static catalogue of fifty
`(name, parameter-record)` pairs, grouped by biome × time-of-day. -/
def CREATURES : List (String × Params) :=
  [("verdant_leaflon", { color := some (76, 174, 79), tail := some "leaf", horns := some false, spines := some 1, crest := some false, spots := some false, fins := some false }),
   ("verdant_barkhorn", { color := some (143, 92, 49), tail := some "normal", horns := some true, horns_color := some (189, 135, 70), spines := some 0, crest := some false, spots := some false, fins := some false }),
   ("verdant_dewhopper", { color := some (119, 178, 187), tail := some "long", horns := some false, spines := some 0, crest := some false, spots := some true, fins := some true }),
   ("verdant_suncollar", { color := some (208, 131, 45), tail := some "normal", horns := some false, spines := some 0, crest := some true, spots := some false, fins := some false, allow_crest_unique := some false }),
   ("verdant_sproutling", { color := some (102, 185, 90), tail := some "leaf", horns := some false, spines := some 2, crest := some false, spots := some false, fins := some false }),
   ("verdant_gloomdrake", { color := some (91, 64, 115), tail := some "long", horns := some true, horns_color := some (111, 84, 135), spines := some 3, crest := some false, spots := some false, fins := some false }),
   ("verdant_shadowpouncer", { color := some (60, 60, 70), tail := some "long", horns := some false, spines := some 2, crest := some false, spots := some false, fins := some false }),
   ("verdant_moonfen", { color := some (75, 123, 199), tail := some "fin", horns := some false, spines := some 0, crest := some false, spots := some true, fins := some true }),
   ("verdant_shadehopper", { color := some (63, 97, 56), tail := some "long", horns := some false, spines := some 0, crest := some false, spots := some true, fins := some false }),
   ("verdant_starbit", { color := some (223, 210, 60), tail := some "fin", horns := some false, spines := some 1, crest := some false, spots := some false, fins := some true }),
   ("desert_sunscale", { color := some (230, 170, 69), tail := some "normal", horns := some true, horns_color := some (255, 213, 96), spines := some 3, crest := some false, spots := some false, fins := some false }),
   ("desert_sandrunner", { color := some (199, 148, 80), tail := some "long", horns := some false, spines := some 1, crest := some false, spots := some false, fins := some false }),
   ("desert_cactusaur", { color := some (187, 167, 57), tail := some "leaf", horns := some true, horns_color := some (204, 190, 92), spines := some 2, crest := some false, spots := some false, fins := some false }),
   ("desert_mirageback", { color := some (207, 152, 97), tail := some "long", horns := some false, spines := some 0, crest := some true, spots := some false, fins := some false }),
   ("desert_dustwing", { color := some (215, 180, 100), tail := some "fin", horns := some false, spines := some 0, crest := some false, spots := some false, fins := some true }),
   ("desert_dunehowl", { color := some (120, 85, 60), tail := some "long", horns := some true, horns_color := some (145, 105, 75), spines := some 1, crest := some false, spots := some false, fins := some false }),
   ("desert_nightcrawler", { color := some (85, 74, 65), tail := some "long", horns := some false, spines := some 3, crest := some false, spots := some false, fins := some false }),
   ("desert_mirageglider", { color := some (139, 116, 102), tail := some "fin", horns := some true, horns_color := some (169, 146, 132), spines := some 0, crest := some false, spots := some false, fins := some true }),
   ("desert_sandshiver", { color := some (155, 121, 93), tail := some "long", horns := some false, spines := some 4, crest := some false, spots := some false, fins := some false }),
   ("desert_aridclaw", { color := some (133, 109, 90), tail := some "normal", horns := some true, horns_color := some (163, 139, 120), spines := some 1, crest := some false, spots := some false, fins := some false }),
   ("ocean_seapup", { color := some (79, 169, 222), tail := some "fin", horns := some false, spines := some 0, crest := some false, spots := some false, fins := some true }),
   ("ocean_coralhorn", { color := some (85, 131, 191), tail := some "normal", horns := some true, horns_color := some (170, 198, 240), spines := some 2, crest := some false, spots := some false, fins := some false }),
   ("ocean_tideback", { color := some (92, 183, 201), tail := some "fin", horns := some false, spines := some 0, crest := some false, spots := some false, fins := some true }),
   ("ocean_splashfin", { color := some (104, 167, 216), tail := some "fin", horns := some false, spines := some 1, crest := some false, spots := some false, fins := some true }),
   ("ocean_wavefoot", { color := some (66, 138, 190), tail := some "fin", horns := some false, spines := some 0, crest := some false, spots := some true, fins := some true }),
   ("ocean_deepglow", { color := some (40, 85, 138), tail := some "fin", horns := some false, spines := some 0, crest := some false, spots := some true, fins := some true }),
   ("ocean_moonray", { color := some (58, 104, 161), tail := some "fin", horns := some false, spines := some 1, crest := some false, spots := some true, fins := some true }),
   ("ocean_abyssclaw", { color := some (50, 84, 123), tail := some "normal", horns := some true, horns_color := some (80, 114, 153), spines := some 2, crest := some false, spots := some false, fins := some false }),
   ("ocean_mistwing", { color := some (76, 121, 182), tail := some "fin", horns := some false, spines := some 0, crest := some false, spots := some false, fins := some true }),
   ("ocean_whirlpooler", { color := some (60, 94, 140), tail := some "fin", horns := some false, spines := some 3, crest := some false, spots := some false, fins := some true }),
   ("mountain_iceback", { color := some (146, 202, 221), tail := some "normal", horns := some true, horns_color := some (176, 232, 251), spines := some 3, crest := some false, spots := some false, fins := some false }),
   ("mountain_snowtail", { color := some (192, 223, 233), tail := some "long", horns := some false, spines := some 1, crest := some false, spots := some false, fins := some false }),
   ("mountain_frosthorn", { color := some (163, 198, 222), tail := some "normal", horns := some true, horns_color := some (213, 243, 255), spines := some 1, crest := some false, spots := some false, fins := some false }),
   ("mountain_glacierpaw", { color := some (179, 210, 220), tail := some "normal", horns := some false, spines := some 0, crest := some true, spots := some false, fins := some false }),
   ("mountain_chilldrake", { color := some (134, 187, 210), tail := some "long", horns := some true, horns_color := some (164, 217, 240), spines := some 2, crest := some false, spots := some false, fins := some false }),
   ("mountain_iciclex", { color := some (103, 143, 170), tail := some "long", horns := some false, spines := some 3, crest := some false, spots := some false, fins := some false }),
   ("mountain_nightfrost", { color := some (90, 122, 149), tail := some "long", horns := some true, horns_color := some (120, 152, 179), spines := some 2, crest := some false, spots := some false, fins := some false }),
   ("mountain_winterstalk", { color := some (113, 153, 180), tail := some "normal", horns := some false, spines := some 4, crest := some false, spots := some false, fins := some false }),
   ("mountain_snowmantle", { color := some (167, 214, 236), tail := some "normal", horns := some false, spines := some 1, crest := some true, spots := some false, fins := some false }),
   ("mountain_iceblink", { color := some (120, 164, 198), tail := some "fin", horns := some true, horns_color := some (150, 194, 228), spines := some 2, crest := some false, spots := some false, fins := some true }),
   ("swamp_mudfin", { color := some (102, 125, 77), tail := some "fin", horns := some false, spines := some 0, crest := some false, spots := some true, fins := some true }),
   ("swamp_bogmaw", { color := some (89, 113, 65), tail := some "long", horns := some true, horns_color := some (119, 143, 95), spines := some 2, crest := some false, spots := some false, fins := some false }),
   ("swamp_marshclaw", { color := some (79, 103, 61), tail := some "long", horns := some false, spines := some 3, crest := some false, spots := some false, fins := some false }),
   ("swamp_fenrunner", { color := some (96, 129, 82), tail := some "long", horns := some false, spines := some 1, crest := some false, spots := some false, fins := some false }),
   ("swamp_vinecrest", { color := some (83, 116, 70), tail := some "leaf", horns := some false, spines := some 0, crest := some true, spots := some false, fins := some false }),
   ("swamp_mireglow", { color := some (70, 96, 58), tail := some "fin", horns := some false, spines := some 0, crest := some false, spots := some true, fins := some true }),
   ("swamp_sludgeback", { color := some (60, 80, 50), tail := some "long", horns := some true, horns_color := some (90, 110, 70), spines := some 2, crest := some false, spots := some false, fins := some false }),
   ("swamp_fogwhisp", { color := some (72, 98, 64), tail := some "fin", horns := some false, spines := some 1, crest := some false, spots := some true, fins := some true }),
   ("swamp_croakshade", { color := some (68, 92, 58), tail := some "long", horns := some false, spines := some 2, crest := some false, spots := some false, fins := some false }),
   ("swamp_nightvine", { color := some (65, 90, 55), tail := some "leaf", horns := some true, horns_color := some (95, 120, 85), spines := some 1, crest := some false, spots := some false, fins := some false })]

/-- `BASE_OUTPUT`: the base-variant directory (relative to the script
directory; `os.makedirs(..., exist_ok=True)` ensures it exists). -/
def BASE_OUTPUT : String := "assets/creatures/base"

/-- `UNIQUE_OUTPUT`: the unique-variant directory. -/
def UNIQUE_OUTPUT : String := "assets/creatures/unique"

/-- One file written by `generate_all`: an unconditional write (PNG
`save` replaces any existing file at the path). -/
structure FileWrite where
  path : String
  img : PILImage
deriving DecidableEq

/-- `generate_all()` as the sequence of file writes the driver loop
performs, in order: for each catalogue entry, render the base and the
unique variant and write them to `<dir>/<name>_base.png` and
`<dir>/<name>_unique.png`.  The random source is a family `rng`
indexed by creature name and variant, since each `draw_creature` call
consumes fresh randomness. -/
def generate_all (rng : String → Bool → ℕ → ℤ × ℤ) : List FileWrite :=
  CREATURES.foldl
    (fun acc np =>
      acc ++
        [⟨BASE_OUTPUT ++ "/" ++ np.1 ++ "_base.png",
          draw_creature np.2 false (rng np.1 false)⟩,
         ⟨UNIQUE_OUTPUT ++ "/" ++ np.1 ++ "_unique.png",
          draw_creature np.2 true (rng np.1 true)⟩])
    []

/-- The colour transform as the specification words it, `Modelled from
the spec:` `min(255, round(c*0.7+80))` with `round` the nearest
integer (written `⌊x + 1/2⌋` over the exact value
`(7c + 800) / 10`; at every input where this is compared against the
code the fractional part is not `1/2`, so the tie-breaking convention
is irrelevant).  This definition exists only to be compared with
`uniqueChannel`, the transform the code performs. -/
def specRoundChannel (c : ℕ) : ℕ :=
  min 255 ((14 * c + 1610) / 20)

/-- The first catalogue entry, `verdant_leaflon`. -/
def vlEntry : String × Params := CREATURES.headI

set_option maxRecDepth 100000 in
/-- On the whole channel domain `[0, 255]` the floating-point
truncation agrees with exact integer arithmetic:
`int(c * 0.7 + 80) = 80 + (7 * c) / 10` (floor division). -/
theorem uniqueChannel_closed_form :
    ∀ c : Fin 256, uniqueChannel c.val = min 255 (80 + 7 * c.val / 10) := by
  decide

/-- Truncated subtraction on `ℕ`, viewed in `ℤ`, is subtraction
clamped at zero — the shape of Python's `max(0, c - k)`. -/
theorem natSub_cast_max (c k : ℕ) : ((c - k : ℕ) : ℤ) = max 0 ((c : ℤ) - k) := by
  omega

/-- C1: for every parameter record, the unique render's feature flags
derive from the base record by: horns inverted, spine count remapped
to `(spines + 2) % 5`, spots inverted, fins inverted, and crest
inverted exactly when the `allow_crest_unique` override (default
`true`) is set, otherwise unchanged. -/
theorem C1_unique_feature_inversion (p : Params) :
    (effFeatures p true).horns = !(extractParams p).horns ∧
    (effFeatures p true).spines = ((extractParams p).spines + 2) % 5 ∧
    (effFeatures p true).spots = !(extractParams p).spots ∧
    (effFeatures p true).fins = !(extractParams p).fins ∧
    (effFeatures p true).crest =
      (if p.allow_crest_unique.getD true then !(extractParams p).crest
       else (extractParams p).crest) :=
  ⟨rfl, rfl, rfl, rfl, rfl⟩

/-- C2 counterexample: at channel value `c = 1` the code computes
`min(255, int(1*0.7+80)) = 80` (truncation of `80.7`), while the
claimed formula `min(255, round(1*0.7+80))` gives `81`; the claim is
false as stated. -/
theorem C2_rounding_counterexample :
    uniqueChannel 1 = 80 ∧ specRoundChannel 1 = 81 ∧ (80 : ℕ) ≠ 81 := by
  decide

/-- C2 amended: the unique-variant channel transform truncates rather
than rounds: for every `c ∈ [0, 255]` it equals
`min(255, int(c*0.7+80)) = min(255, 80 + ⌊7c/10⌋)`. -/
theorem C2_truncated_transform (c : ℕ) (h : c ≤ 255) :
    uniqueChannel c = min 255 (80 + 7 * c / 10) :=
  uniqueChannel_closed_form ⟨c, by omega⟩

/-- Witness for `C2_truncated_transform` at `c = 100`. -/
theorem C2_truncated_transform_witness :
    uniqueChannel 100 = min 255 (80 + 7 * 100 / 10) :=
  C2_truncated_transform 100 (by decide)

/-- C3 counterexample: the unique variant of `verdant_leaflon`
(base colour `(76, 174, 79)`) has body colour `(133, 201, 135)` — the
middle channel is `int(174*0.7+80) = int(201.8) = 201`, not the `202`
the claim states. -/
theorem C3_colour_counterexample :
    vlEntry.1 = "verdant_leaflon" ∧
    (effFeatures vlEntry.2 true).colour = (133, 201, 135) ∧
    ((133, 201, 135) : Colour) ≠ (133, 202, 135) := by
  decide

/-- C3 amended: the `verdant_leaflon` base render is exactly the body,
head, two legs, the leaf tail polygon with its vein line, one spine
triangle, and the two eyes — no horns, crest, spots or fins — and its
unique variant has `spines = 3`, horns, spots, fins and crest present,
with body colour `(133, 201, 135)`. -/
theorem C3_verdant_leaflon_render :
    vlEntry.1 = "verdant_leaflon" ∧
    (draw_creature vlEntry.2 false fun _ => (30, 50)).ops =
      [.ellipse 20 40 80 90 (76, 174, 79),
       .ellipse 40 20 80 60 (76, 174, 79),
       .rectangle 30 80 40 95 (76, 174, 79),
       .rectangle 55 80 65 95 (76, 174, 79),
       .polygon [(20, 70), (10, 50), (20, 55), (15, 65)] (76, 174, 79),
       .line [(15, 55), (15, 65)] (0, 100, 0) 1,
       .polygon [(30, 38), (35, 28), (40, 38)] (46, 144, 49),
       .ellipse 53 28 59 34 (255, 255, 255),
       .ellipse 55 30 57 32 (0, 0, 0),
       .ellipse 39 28 45 34 (255, 255, 255),
       .ellipse 41 30 43 32 (0, 0, 0)] ∧
    (effFeatures vlEntry.2 true).spines = 3 ∧
    (effFeatures vlEntry.2 true).horns = true ∧
    (effFeatures vlEntry.2 true).spots = true ∧
    (effFeatures vlEntry.2 true).fins = true ∧
    (effFeatures vlEntry.2 true).crest = true ∧
    (effFeatures vlEntry.2 true).colour = (133, 201, 135) := by
  decide

/-- C4: rendering is deterministic whenever the effective spots flag
is false — two calls with different random streams give identical
images — and in general the random stream influences nothing but the
six spot ellipses, which sit between the fixed pre-spot and post-spot
command sequences. -/
theorem C4_spotless_determinism (p : Params) (u : Bool)
    (r₁ r₂ : ℕ → ℤ × ℤ) :
    ((effFeatures p u).spots = false →
      draw_creature p u r₁ = draw_creature p u r₂) ∧
    (draw_creature p u r₁).ops =
      preSpotOps (effFeatures p u) u ++
        spotOps (effFeatures p u).spots (effFeatures p u).colour r₁ ++
        postSpotOps (effFeatures p u) ∧
    ((effFeatures p u).spots = true →
      (spotOps (effFeatures p u).spots (effFeatures p u).colour r₁).length = 6) := by
  refine ⟨fun h => ?_, rfl, fun h => ?_⟩
  · simp [draw_creature, spotOps, h]
  · simp [spotOps, h]

/-- Witness for `C4_spotless_determinism`: the empty record (spots
default to false) renders identically under two different random
streams. -/
theorem C4_spotless_determinism_witness :
    draw_creature {} false (fun _ => (30, 50)) =
      draw_creature {} false (fun _ => (70, 85)) :=
  (C4_spotless_determinism {} false (fun _ => (30, 50)) (fun _ => (70, 85))).1 rfl

/-- C5: every render, for any record and either variant flag, is a
100×100 RGBA raster starting from a fully transparent background. -/
theorem C5_canvas_format (p : Params) (u : Bool) (rng : ℕ → ℤ × ℤ) :
    (draw_creature p u rng).mode = "RGBA" ∧
    (draw_creature p u rng).width = 100 ∧
    (draw_creature p u rng).height = 100 ∧
    (draw_creature p u rng).background = (0, 0, 0, 0) :=
  ⟨rfl, rfl, rfl, rfl⟩

/-- C6: exactly one tail shape is drawn: `'leaf'` gives the four-point
polygon plus vein line, `'long'` and `'fin'` their three-point shapes
(`'fin'` with a vein line), and every other tail value — `'normal'` or
unrecognized — the small normal polygon; the four shapes are pairwise
distinct, so the cases are mutually exclusive. -/
theorem C6_tail_mutual_exclusion (t : String) (c : Colour) :
    (t = "leaf" → tailOps t c = leafTail c) ∧
    (t = "long" → tailOps t c = longTail c) ∧
    (t = "fin" → tailOps t c = finTail c) ∧
    (t ≠ "leaf" → t ≠ "long" → t ≠ "fin" → tailOps t c = normalTail c) ∧
    leafTail c ≠ longTail c ∧ leafTail c ≠ finTail c ∧
    leafTail c ≠ normalTail c ∧ longTail c ≠ finTail c ∧
    longTail c ≠ normalTail c ∧ finTail c ≠ normalTail c ∧
    leafTail c =
      [.polygon [(20, 70), (10, 50), (20, 55), (15, 65)] c,
       .line [(15, 55), (15, 65)] (0, 100, 0) 1] ∧
    longTail c = [.polygon [(20, 75), (5, 65), (20, 55)] c] ∧
    finTail c =
      [.polygon [(20, 70), (5, 60), (20, 50)] c,
       .line [(12, 58), (12, 65)] (0, 150, 200) 1] ∧
    normalTail c = [.polygon [(20, 70), (10, 65), (20, 60)] c] := by
  refine ⟨fun h => by simp [tailOps, h], fun h => by simp [tailOps, h],
    fun h => by simp [tailOps, h], fun h₁ h₂ h₃ => by simp [tailOps, h₁, h₂, h₃],
    by simp [leafTail, longTail], by simp [leafTail, finTail],
    by simp [leafTail, normalTail], by simp [longTail, finTail],
    by simp [longTail, normalTail], by simp [finTail, normalTail],
    rfl, rfl, rfl, rfl⟩

/-- Witness for `C6_tail_mutual_exclusion` at `t = "leaf"`. -/
theorem C6_tail_mutual_exclusion_witness :
    tailOps "leaf" (0, 0, 0) = leafTail (0, 0, 0) :=
  (C6_tail_mutual_exclusion "leaf" (0, 0, 0)).1 rfl

/-- C7: feature fills derive per channel from the effective body
colour by fixed clamped offsets: horns use the explicit horn colour
when present and otherwise `min(255, c+40)`; spines `max(0, c-30)`;
spots `max(0, c-40)`; fins `min(255, c+60)`. -/
theorem C7_feature_colour_offsets (p : Params) (u : Bool)
    (rng : ℕ → ℤ × ℤ) :
    ((effFeatures p u).horns_color = none →
      ∀ op ∈ hornOps (effFeatures p u),
        op.fill = (min 255 ((effFeatures p u).colour.1 + 40),
                   min 255 ((effFeatures p u).colour.2.1 + 40),
                   min 255 ((effFeatures p u).colour.2.2 + 40))) ∧
    (∀ hc, (effFeatures p u).horns_color = some hc →
      ∀ op ∈ hornOps (effFeatures p u), op.fill = hc) ∧
    (∀ op ∈ spineOps (effFeatures p u).spines (effFeatures p u).colour,
      ((op.fill.1 : ℤ) = max 0 (((effFeatures p u).colour.1 : ℤ) - 30) ∧
       (op.fill.2.1 : ℤ) = max 0 (((effFeatures p u).colour.2.1 : ℤ) - 30) ∧
       (op.fill.2.2 : ℤ) = max 0 (((effFeatures p u).colour.2.2 : ℤ) - 30))) ∧
    (∀ op ∈ spotOps (effFeatures p u).spots (effFeatures p u).colour rng,
      ((op.fill.1 : ℤ) = max 0 (((effFeatures p u).colour.1 : ℤ) - 40) ∧
       (op.fill.2.1 : ℤ) = max 0 (((effFeatures p u).colour.2.1 : ℤ) - 40) ∧
       (op.fill.2.2 : ℤ) = max 0 (((effFeatures p u).colour.2.2 : ℤ) - 40))) ∧
    (∀ op ∈ finOps (effFeatures p u).fins (effFeatures p u).colour,
      op.fill = (min 255 ((effFeatures p u).colour.1 + 60),
                 min 255 ((effFeatures p u).colour.2.1 + 60),
                 min 255 ((effFeatures p u).colour.2.2 + 60))) := by
  set f := effFeatures p u
  refine ⟨?_, ?_, ?_, ?_, ?_⟩
  · intro h op hop
    unfold hornOps at hop
    rcases hf : f.horns with _ | _
    · simp [hf, h] at hop
    · simp [hf, h] at hop
      rcases hop with rfl | rfl <;> simp [DrawOp.fill, mapColour]
  · intro hc h op hop
    unfold hornOps at hop
    rcases hf : f.horns with _ | _
    · simp [hf, h] at hop
    · simp [hf, h] at hop
      rcases hop with rfl | rfl <;> simp [DrawOp.fill]
  · intro op hop
    unfold spineOps at hop
    simp only [List.mem_map, List.mem_range] at hop
    obtain ⟨i, -, rfl⟩ := hop
    refine ⟨?_, ?_, ?_⟩ <;> simp [DrawOp.fill, mapColour, natSub_cast_max]
  · intro op hop
    unfold spotOps at hop
    rcases hs : f.spots with _ | _
    · simp [hs] at hop
    · simp [hs] at hop
      obtain ⟨k, -, rfl⟩ := hop
      refine ⟨?_, ?_, ?_⟩ <;> simp [DrawOp.fill, mapColour, natSub_cast_max]
  · intro op hop
    unfold finOps at hop
    rcases hf : f.fins with _ | _
    · simp [hf] at hop
    · simp [hf] at hop
      obtain ⟨i, -, rfl⟩ := hop
      simp [DrawOp.fill, mapColour]

/-- Witness for `C7_feature_colour_offsets`: a record with horns and
no explicit horn colour gets horn fill `(160, 240, 160)`, the default
body colour `(120, 200, 120)` lightened by 40. -/
theorem C7_feature_colour_offsets_witness :
    DrawOp.fill (.polygon [(50, 12), (54, 25), (46, 25)] (160, 240, 160)) =
      (160, 240, 160) :=
  (C7_feature_colour_offsets { horns := some true } false (fun _ => (30, 50))).1
    rfl (.polygon [(50, 12), (54, 25), (46, 25)] (160, 240, 160)) (by decide)

/-- C8: the unique-variant channel transform is monotone
non-decreasing on the whole channel domain `[0, 255]` (in particular
for `c ≤ 171`), and saturates at 255 from the clamp threshold
`c = 250` onward. -/
theorem C8_monotone_saturation (c₁ c₂ : ℕ) (h₁ : c₁ ≤ c₂) (h₂ : c₂ ≤ 255) :
    uniqueChannel c₁ ≤ uniqueChannel c₂ ∧
    (250 ≤ c₁ → uniqueChannel c₁ = 255) := by
  have e₁ := uniqueChannel_closed_form ⟨c₁, by omega⟩
  have e₂ := uniqueChannel_closed_form ⟨c₂, by omega⟩
  simp only at e₁ e₂
  rw [e₁, e₂]
  omega

/-- Witness for `C8_monotone_saturation` at `(c₁, c₂) = (250, 255)`. -/
theorem C8_monotone_saturation_witness :
    uniqueChannel 250 ≤ uniqueChannel 255 ∧ uniqueChannel 250 = 255 :=
  ⟨(C8_monotone_saturation 250 255 (by decide) (by decide)).1,
   (C8_monotone_saturation 250 255 (by decide) (by decide)).2 (by decide)⟩

/-- A driver-style fold that appends a fixed pair of writes per entry
equals the flat map of those writes. -/
theorem foldl_writes (w : String × Params → List FileWrite) :
    ∀ (l : List (String × Params)) (a : List FileWrite),
      l.foldl (fun acc np => acc ++ w np) a = a ++ l.flatMap w := by
  intro l
  induction l with
  | nil => intro a; simp
  | cons x xs ih => intro a; simp [ih]

/-- `generate_all` is the flat map of the two per-creature writes over
the catalogue. -/
theorem generate_all_eq (rng : String → Bool → ℕ → ℤ × ℤ) :
    generate_all rng = CREATURES.flatMap (fun np =>
      [⟨BASE_OUTPUT ++ "/" ++ np.1 ++ "_base.png",
        draw_creature np.2 false (rng np.1 false)⟩,
       ⟨UNIQUE_OUTPUT ++ "/" ++ np.1 ++ "_unique.png",
        draw_creature np.2 true (rng np.1 true)⟩]) := by
  have h := foldl_writes (fun np =>
    [⟨BASE_OUTPUT ++ "/" ++ np.1 ++ "_base.png",
      draw_creature np.2 false (rng np.1 false)⟩,
     ⟨UNIQUE_OUTPUT ++ "/" ++ np.1 ++ "_unique.png",
      draw_creature np.2 true (rng np.1 true)⟩]) CREATURES []
  simpa [generate_all] using h

/-- Projecting the paths out of a flat map of write pairs. -/
theorem map_path_flatMap (p₁ p₂ : String × Params → String)
    (i₁ i₂ : String × Params → PILImage) :
    ∀ l : List (String × Params),
      (l.flatMap (fun np => [⟨p₁ np, i₁ np⟩, ⟨p₂ np, i₂ np⟩])).map FileWrite.path =
        l.flatMap (fun np => [p₁ np, p₂ np]) := by
  intro l
  induction l with
  | nil => rfl
  | cons x xs ih => simp [ih]

/-- A flat map of string pairs has twice the source length. -/
theorem flatMap_pair_length (p₁ p₂ : String × Params → String) :
    ∀ l : List (String × Params),
      (l.flatMap (fun np => [p₁ np, p₂ np])).length = 2 * l.length := by
  intro l
  induction l with
  | nil => rfl
  | cons x xs ih => simp [ih]; omega

set_option maxHeartbeats 4000000 in
/-- C9: the catalogue holds exactly fifty entries and a full driver
run performs exactly one hundred writes — for each entry,
`<name>_base.png` under the base directory and `<name>_unique.png`
under the unique directory — with all one hundred paths distinct
(writes replace existing files unconditionally). -/
theorem C9_catalogue_outputs (rng : String → Bool → ℕ → ℤ × ℤ) :
    CREATURES.length = 50 ∧
    (generate_all rng).length = 100 ∧
    (generate_all rng).map FileWrite.path =
      CREATURES.flatMap (fun np =>
        [BASE_OUTPUT ++ "/" ++ np.1 ++ "_base.png",
         UNIQUE_OUTPUT ++ "/" ++ np.1 ++ "_unique.png"]) ∧
    ((generate_all rng).map FileWrite.path).Nodup := by
  have h : (generate_all rng).map FileWrite.path =
      CREATURES.flatMap (fun np =>
        [BASE_OUTPUT ++ "/" ++ np.1 ++ "_base.png",
         UNIQUE_OUTPUT ++ "/" ++ np.1 ++ "_unique.png"]) := by
    rw [generate_all_eq, map_path_flatMap]
  refine ⟨rfl, ?_, h, ?_⟩
  · have hl := congrArg List.length h
    rw [List.length_map, flatMap_pair_length] at hl
    rw [hl]
    rfl
  · rw [h]
    decide

/-- C10: the empty parameter record renders with every documented
default, including the body colour `(120, 200, 120)` — the colour
field has a default like every other field — and the resulting base
image is just body, head, legs, normal tail and eyes. -/
theorem C10_empty_record_defaults :
    extractParams {} =
      { colour := (120, 200, 120), tail := "normal", horns := false,
        horns_color := none, spines := 0, crest := false, spots := false,
        fins := false } ∧
    (draw_creature {} false fun _ => (30, 50)).ops =
      [.ellipse 20 40 80 90 (120, 200, 120),
       .ellipse 40 20 80 60 (120, 200, 120),
       .rectangle 30 80 40 95 (120, 200, 120),
       .rectangle 55 80 65 95 (120, 200, 120),
       .polygon [(20, 70), (10, 65), (20, 60)] (120, 200, 120),
       .ellipse 53 28 59 34 (255, 255, 255),
       .ellipse 55 30 57 32 (0, 0, 0),
       .ellipse 39 28 45 34 (255, 255, 255),
       .ellipse 41 30 43 32 (0, 0, 0)] := by
  decide

end ShinyHunt
